import Mathlib

/-!
Verification of `src/transactions.py` (`validate_transaction`).

The Python function is embedded shallowly:

* Python values that can appear in the transaction mapping are the
  inductive `PyVal`: scalar data (`PyBase`), callables, and database
  handles.  Callables and database queries are modelled as pure Lean
  functions returning `Except PyExc PyBase` / `Except PyExc Bool`, so an
  arbitrary caller-supplied callback is an arbitrary such function.
* `float(x)` is `pyFloatCoerce`; Python floats are `PyFloat` with an
  idealised rational payload plus `nan`, `inf`, `ninf` (the code only
  observes the sign of the coerced amount, which the rational payload
  preserves).  `float` of an integer raises `OverflowError` when the
  integer is too large for a double; the bound is modelled as `2 ^ 1024`.
* `datetime.date.fromisoformat` (strict `YYYY-MM-DD` form) is
  `fromisoformatOk`; `str(x)` is `pyStr`.
* The mutable `errors` list and `valid` flag are threaded explicitly
  through `amountCheck`, `dateCheck`, `accountCheck`, mirroring the
  statement order of the source.  An exception that the source does not
  catch surfaces as `Except.error`.
-/

set_option maxRecDepth 4000

namespace NL2PL

/-- Python exception classes that the modelled code can raise or catch. -/
inductive PyExc where
  | typeError
  | valueError
  | overflowError
  | other (msg : String)
deriving DecidableEq, Repr

/-- A Python float: an idealised finite rational value, or one of the
special values.  The validator only compares the coerced amount with `0`,
which the rational idealisation preserves. -/
inductive PyFloat where
  | finite (q : ℚ)
  | nan
  | inf
  | ninf
deriving DecidableEq, Repr

/-- `x <= 0` on a Python float: comparisons with `nan` are false. -/
def PyFloat.le0 : PyFloat → Bool
  | .finite q => decide (q ≤ 0)
  | .nan => false
  | .inf => false
  | .ninf => true

/-- Scalar Python values that can be stored in the mapping or returned by a
callback.  `obj s` stands for any other object, carrying its `str` form. -/
inductive PyBase where
  | none
  | int (n : ℤ)
  | float (f : PyFloat)
  | str (s : String)
  | date (y m d : ℕ)
  | datetime (y m d hh mi ss : ℕ)
  | obj (s : String)
deriving DecidableEq, Repr

/-- Python truthiness, `bool(x)`. -/
def PyBase.toBool : PyBase → Bool
  | .none => false
  | .int n => n ≠ 0
  | .float (.finite q) => decide (q ≠ 0)
  | .float _ => true
  | .str s => s ≠ ""
  | .date _ _ _ => true
  | .datetime _ _ _ _ _ _ => true
  | .obj _ => true

/-- A database handle as the validator sees it: whether `hasattr(db,
"cursor")` holds, and the combined behaviour of
`cursor() / execute(sql, (id,)) / fetchone()` — `Bool` says whether a row
came back, `Except.error` models any exception on that path. -/
structure DbHandle where
  hasCursor : Bool
  query : String → PyBase → Except PyExc Bool

/-- A Python value stored in the transaction mapping. -/
inductive PyVal where
  | base (b : PyBase)
  | callable (f : PyBase → Except PyExc PyBase)
  | db (h : DbHandle)

/-- `x is None`. -/
def PyVal.isNone : PyVal → Bool
  | .base .none => true
  | _ => false

/-- `callable(x)`. -/
def PyVal.isCallable : PyVal → Bool
  | .callable _ => true
  | _ => false

/-- `hasattr(x, "cursor")`: only a database handle exposes a cursor. -/
def PyVal.hasCursorAttr : PyVal → Bool
  | .db h => h.hasCursor
  | _ => false

/-- `isinstance(x, (datetime.date, datetime.datetime))`. -/
def PyVal.isDateLike : PyVal → Bool
  | .base (.date _ _ _) => true
  | .base (.datetime _ _ _ _ _ _) => true
  | _ => false

/-- The scalar view of a value, as passed into a callback or query. -/
def PyVal.toBase : PyVal → PyBase
  | .base b => b
  | .callable _ => .obj "<function>"
  | .db _ => .obj "<db>"

/-- `x(arg)`: invoke a value known to be callable. -/
def PyVal.callResult : PyVal → PyBase → Except PyExc PyBase
  | .callable f, b => f b
  | _, _ => .error .typeError

/-- Run the cursor/execute/fetchone sequence on a value known to expose a
cursor. -/
def PyVal.runQuery : PyVal → String → PyBase → Except PyExc Bool
  | .db h, sql, arg => h.query sql arg
  | _, _, _ => .error (.other "no cursor")

/-- `str(f)` for a float; the finite case abstracts CPython's
shortest-round-trip repr (its exact digits are never observed by the
validator: a float's repr can never have the `YYYY-MM-DD` shape). -/
def pyFloatStr : PyFloat → String
  | .finite q => toString q
  | .nan => "nan"
  | .inf => "inf"
  | .ninf => "-inf"

/-- Zero-padded two-digit decimal rendering. -/
def pad2 (n : ℕ) : String := if n < 10 then "0" ++ toString n else toString n

/-- Zero-padded four-digit decimal rendering (for `n ≤ 9999`). -/
def pad4 (n : ℕ) : String := pad2 (n / 100) ++ pad2 (n % 100)

/-- `str(x)` for a scalar value. -/
def pyBaseStr : PyBase → String
  | .none => "None"
  | .int n => toString n
  | .float f => pyFloatStr f
  | .str s => s
  | .date y m d => pad4 y ++ "-" ++ pad2 m ++ "-" ++ pad2 d
  | .datetime y m d hh mi ss =>
      pad4 y ++ "-" ++ pad2 m ++ "-" ++ pad2 d ++ " " ++
        pad2 hh ++ ":" ++ pad2 mi ++ ":" ++ pad2 ss
  | .obj s => s

/-- `str(x)`. -/
def pyStr (v : PyVal) : String := pyBaseStr v.toBase

/-- ASCII whitespace stripped by `float(str)`. -/
def isPySpace (c : Char) : Bool :=
  c = ' ' || c = '\t' || c = '\n' || c = '\x0b' || c = '\x0c' || c = '\r'

/-- Strip leading and trailing whitespace from a character list. -/
def stripPySpace (cs : List Char) : List Char :=
  ((cs.dropWhile isPySpace).reverse.dropWhile isPySpace).reverse

/-- Underscores in a numeric literal must sit between two digits; when the
shape is legal, return the list with the underscores removed. -/
def unUnderscore : List Char → Option (List Char)
  | [] => some []
  | '_' :: _ => Option.none
  | c :: rest => go c rest
where
  go : Char → List Char → Option (List Char)
  | c, [] => if c = '_' then Option.none else some [c]
  | c, c2 :: rest =>
    if c = '_' then
      if c2.isDigit then go c2 rest else Option.none
    else if c = '_' ∨ (c2 = '_' ∧ ¬c.isDigit) then Option.none
    else (go c2 rest).map (c :: ·)

/-- Numeric value of a digit string. -/
def digitsVal (cs : List Char) : ℕ :=
  cs.foldl (fun a c => 10 * a + (c.toNat - 48)) 0

/-- Parse the decimal-number part of a `float` literal:
`digits [. digits] [(e|E) [sign] digits]`, at least one mantissa digit,
nothing left over.  Returns the idealised rational value. -/
def parseDecimal (sgn : ℤ) (cs : List Char) : Option PyFloat :=
  let ip := cs.takeWhile Char.isDigit
  let rest := cs.dropWhile Char.isDigit
  let fp := match rest with
    | '.' :: r => r.takeWhile Char.isDigit
    | _ => []
  let rest2 := match rest with
    | '.' :: r => r.dropWhile Char.isDigit
    | r => r
  if ip = [] ∧ fp = [] then Option.none
  else
    match rest2 with
    | [] => some (.finite ((sgn : ℚ) * digitsVal (ip ++ fp) * 10 ^ (-(fp.length : ℤ))))
    | e :: r =>
      if e = 'e' ∨ e = 'E' then
        let (esgn, ed) : ℤ × List Char := match r with
          | '+' :: r2 => (1, r2)
          | '-' :: r2 => (-1, r2)
          | r2 => (1, r2)
        if ed ≠ [] ∧ ed.all Char.isDigit then
          some (.finite ((sgn : ℚ) * digitsVal (ip ++ fp) *
            10 ^ (esgn * digitsVal ed - (fp.length : ℤ))))
        else Option.none
      else Option.none

/-- `float(s)` for a string `s`: strip whitespace, take an optional sign,
accept `inf`/`infinity`/`nan` case-insensitively, else parse a decimal
literal (underscores allowed between digits).  `none` models
`ValueError`. -/
def parseFloatStr (s : String) : Option PyFloat :=
  let cs := stripPySpace s.toList
  let (sgn, cs2) : ℤ × List Char := match cs with
    | '+' :: r => (1, r)
    | '-' :: r => (-1, r)
    | r => (1, r)
  let lower := cs2.map Char.toLower
  if lower = "inf".toList ∨ lower = "infinity".toList then
    some (if sgn = 1 then .inf else .ninf)
  else if lower = "nan".toList then some .nan
  else
    match unUnderscore cs2 with
    | Option.none => Option.none
    | some cs3 => parseDecimal sgn cs3

/-- `float(x)`.  A string that does not parse raises `ValueError`; an
integer beyond double range raises `OverflowError`; a value of a
non-numeric type raises `TypeError`. -/
def pyFloatCoerce : PyVal → Except PyExc PyFloat
  | .base (.int n) =>
      if 2 ^ 1024 ≤ n.natAbs then .error .overflowError else .ok (.finite n)
  | .base (.float f) => .ok f
  | .base (.str s) =>
      match parseFloatStr s with
      | some f => .ok f
      | Option.none => .error .valueError
  | _ => .error .typeError

/-- Gregorian leap year. -/
def isLeapYear (y : ℕ) : Bool := y % 4 = 0 && (y % 100 ≠ 0 || y % 400 = 0)

/-- Number of days in month `m` of year `y`. -/
def daysInMonth (y m : ℕ) : ℕ :=
  if m = 2 then (if isLeapYear y then 29 else 28)
  else if m = 4 ∨ m = 6 ∨ m = 9 ∨ m = 11 then 30
  else 31

/-- Numeric value of a digit character. -/
def digitVal (c : Char) : ℕ := c.toNat - 48

/-- `datetime.date.fromisoformat(s)` succeeds: `s` is exactly
`YYYY-MM-DD` with all digits, and the components form a valid
`datetime.date` (year ≥ 1, month in 1..12, day in range for the month). -/
def fromisoformatOk (s : String) : Bool :=
  match s.toList with
  | [y1, y2, y3, y4, h1, m1, m2, h2, d1, d2] =>
    y1.isDigit && y2.isDigit && y3.isDigit && y4.isDigit && h1 = '-' &&
    m1.isDigit && m2.isDigit && h2 = '-' && d1.isDigit && d2.isDigit &&
    (let y := 1000 * digitVal y1 + 100 * digitVal y2 + 10 * digitVal y3 + digitVal y4
     let m := 10 * digitVal m1 + digitVal m2
     let d := 10 * digitVal d1 + digitVal d2
     1 ≤ y && 1 ≤ m && m ≤ 12 && 1 ≤ d && d ≤ daysInMonth y m)
  | _ => false

/-- The transaction mapping: an association list with `dict.get`
semantics (`none` when the key is absent). -/
structure Dict where
  entries : List (String × PyVal)

/-- `transaction.get(k)`: the stored value, or `None` when absent. -/
def Dict.get (t : Dict) (k : String) : PyVal :=
  match t.entries.find? (fun e => e.1 = k) with
  | some e => e.2
  | Option.none => .base .none

/-- The returned mapping `{"valid": ..., "errors": ...}`. -/
structure VResult where
  valid : Bool
  errors : List String
deriving DecidableEq, Repr

/-- The amount block of `validate_transaction`, acting on the current
`errors` list and `valid` flag.  Only `TypeError` and `ValueError` from
the coercion are caught; any other exception propagates. -/
def amountCheck (t : Dict) (errors : List String) (valid : Bool) :
    Except PyExc (List String × Bool) :=
  let amount := t.get "amount"
  if amount.isNone then .ok (errors ++ ["amount is required"], false)
  else
    match pyFloatCoerce amount with
    | .error .typeError => .ok (errors ++ ["amount must be a number"], false)
    | .error .valueError => .ok (errors ++ ["amount must be a number"], false)
    | .error e => .error e
    | .ok v =>
      if v.le0 then .ok (errors ++ ["amount must be greater than 0"], false)
      else .ok (errors, valid)

/-- The date block: a `date`/`datetime` instance is accepted as is;
any other present value is stringified and parsed, every exception on
that path being caught. -/
def dateCheck (t : Dict) (errors : List String) (valid : Bool) :
    List String × Bool :=
  let date_value := t.get "date"
  if date_value.isNone then (errors ++ ["date is required"], false)
  else if date_value.isDateLike then (errors, valid)
  else if fromisoformatOk (pyStr date_value) then (errors, valid)
  else (errors ++ ["date is not a valid date"], false)

/-- The account block: a callable `account_exists` takes precedence, then
a db handle exposing a cursor; with neither, the could-not-verify error is
recorded; a final `does not exist` error is appended whenever existence
came out false. -/
def accountCheck (t : Dict) (errors : List String) (valid : Bool) :
    List String × Bool :=
  let account_id := t.get "account_id"
  if account_id.isNone then (errors ++ ["account_id is required"], false)
  else
    let step : List String × Bool × Bool :=
      let cb := t.get "account_exists"
      if cb.isCallable then
        (errors, valid,
          match cb.callResult account_id.toBase with
          | .ok v => v.toBool
          | .error _ => false)
      else
        let dbv := t.get "db"
        if !dbv.isNone && dbv.hasCursorAttr then
          (errors, valid,
            match dbv.runQuery "SELECT 1 FROM accounts WHERE id = %s" account_id.toBase with
            | .ok b => b
            | .error _ => false)
        else
          (errors ++
            ["account existence could not be verified (no db handler or callback provided)"],
           false, false)
    match step with
    | (errs, vld, ex) =>
      if ex then (errs, vld)
      else (errs ++ ["account with id " ++ pyStr account_id ++ " does not exist"], false)

/-- `validate_transaction(transaction)`: run the three blocks in source
order on the accumulating state and package the result; an uncaught
exception surfaces as `Except.error`. -/
def validate_transaction (t : Dict) : Except PyExc VResult :=
  match amountCheck t [] true with
  | .error e => .error e
  | .ok (errors1, valid1) =>
    match dateCheck t errors1 valid1 with
    | (errors2, valid2) =>
      match accountCheck t errors2 valid2 with
      | (errors3, valid3) => .ok { valid := valid3, errors := errors3 }

/-- The transaction mapping threaded as mutable state: `dict.get` reads
without writing.  Used to make the absence of mutation explicit. -/
def Dict.getS (t : Dict) (k : String) : PyVal × Dict := (t.get k, t)

/-- `validate_transaction` with the mapping threaded through every access,
returning the outcome together with the final state of the mapping. -/
def validate_transaction_st (t : Dict) : Except PyExc VResult × Dict :=
  match t.getS "amount" with
  | (_, t1) =>
  match amountCheck t1 [] true with
  | .error e => (.error e, t1)
  | .ok (errors1, valid1) =>
    match t1.getS "date" with
    | (_, t2) =>
    match dateCheck t2 errors1 valid1 with
    | (errors2, valid2) =>
      match t2.getS "account_id" with
      | (_, t3) =>
      match t3.getS "account_exists" with
      | (_, t4) =>
      match t4.getS "db" with
      | (_, t5) =>
      match accountCheck t5 errors2 valid2 with
      | (errors3, valid3) => (.ok { valid := valid3, errors := errors3 }, t5)

/-- The errors appended by the amount block alone. -/
def amountContribution (t : Dict) : Except PyExc (List String) :=
  let amount := t.get "amount"
  if amount.isNone then .ok ["amount is required"]
  else
    match pyFloatCoerce amount with
    | .error .typeError => .ok ["amount must be a number"]
    | .error .valueError => .ok ["amount must be a number"]
    | .error e => .error e
    | .ok v => if v.le0 then .ok ["amount must be greater than 0"] else .ok []

/-- The errors appended by the date block alone. -/
def dateContribution (t : Dict) : List String :=
  let date_value := t.get "date"
  if date_value.isNone then ["date is required"]
  else if date_value.isDateLike then []
  else if fromisoformatOk (pyStr date_value) then []
  else ["date is not a valid date"]

/-- The errors appended by the account block alone. -/
def accountContribution (t : Dict) : List String :=
  let account_id := t.get "account_id"
  if account_id.isNone then ["account_id is required"]
  else
    let step : List String × Bool :=
      let cb := t.get "account_exists"
      if cb.isCallable then
        ([],
          match cb.callResult account_id.toBase with
          | .ok v => v.toBool
          | .error _ => false)
      else
        let dbv := t.get "db"
        if !dbv.isNone && dbv.hasCursorAttr then
          ([],
            match dbv.runQuery "SELECT 1 FROM accounts WHERE id = %s" account_id.toBase with
            | .ok b => b
            | .error _ => false)
        else
          (["account existence could not be verified (no db handler or callback provided)"],
           false)
    match step with
    | (errs, ex) =>
      if ex then errs
      else errs ++ ["account with id " ++ pyStr account_id ++ " does not exist"]

instance {ε α : Type} [DecidableEq ε] [DecidableEq α] : DecidableEq (Except ε α) := fun
  | .error a, .error b => decidable_of_iff (a = b) (by simp)
  | .error _, .ok _ => isFalse (by simp)
  | .ok _, .error _ => isFalse (by simp)
  | .ok a, .ok b => decidable_of_iff (a = b) (by simp)

/-- Spec-side predicate (refinement target for the date check): `s` is an
ISO-8601 calendar date string `YYYY-MM-DD`, i.e. the zero-padded rendering
of a valid Gregorian date with a four-digit year. -/
def IsCalendarDateString (s : String) : Prop :=
  ∃ y m d : ℕ, 1 ≤ y ∧ y ≤ 9999 ∧ 1 ≤ m ∧ m ≤ 12 ∧ 1 ≤ d ∧ d ≤ daysInMonth y m ∧
    s = pad4 y ++ "-" ++ pad2 m ++ "-" ++ pad2 d

/-- A transaction whose amount is an integer too large for a double. -/
def overflowTx : Dict :=
  ⟨[("amount", .base (.int (Int.ofNat (10 ^ 400)))), ("date", .base (.str "2024-01-01")),
    ("account_id", .base (.int 1)), ("account_exists", .callable (fun _ => .ok (.int 1)))]⟩

/-- A second oversized-amount transaction (amount only). -/
def overflowTx2 : Dict := ⟨[("amount", .base (.int (Int.ofNat (2 ^ 1100))))]⟩

/-- A transaction with a non-callable `account_exists` and a working db
handle. -/
def strCallbackTx : Dict :=
  ⟨[("account_id", .base (.int 9)), ("account_exists", .base (.str "notcallable")),
    ("db", .db ⟨true, fun _ _ => .ok true⟩)]⟩

/-- `strCallbackTx` with the `account_exists` entry absent. -/
def strCallbackTxAbsent : Dict :=
  ⟨[("account_id", .base (.int 9)), ("db", .db ⟨true, fun _ _ => .ok true⟩)]⟩

/-- A transaction whose `account_exists` callback raises, next to a db
handle that would report the account as existing. -/
def raisingCallbackTx : Dict :=
  ⟨[("account_id", .base (.int 5)),
    ("account_exists", .callable (fun _ => .error (.other "boom"))),
    ("db", .db ⟨true, fun _ _ => .ok true⟩)]⟩

/-- A transaction with `account_id` and neither callback nor db. -/
def unverifiableTx : Dict :=
  ⟨[("amount", .base (.int 10)), ("date", .base (.str "2024-05-01")),
    ("account_id", .base (.int 5))]⟩

/-- A transaction whose amount is the string `"nan"`. -/
def nanAmountTx : Dict := ⟨[("amount", .base (.str "nan"))]⟩

/-- A transaction with only a valid string date. -/
def strDateTx : Dict := ⟨[("date", .base (.str "2024-01-15"))]⟩

theorem amountCheck_eq (t : Dict) (e : List String) (v : Bool) :
    amountCheck t e v =
      (amountContribution t).map (fun c => (e ++ c, v && c.isEmpty)) := by
  unfold amountCheck amountContribution
  dsimp only
  split
  · simp [Except.map]
  · cases hc : pyFloatCoerce (t.get "amount") with
    | error ex => cases ex <;> simp [Except.map]
    | ok f =>
      by_cases hf : f.le0 <;> simp [hf, Except.map]

theorem dateCheck_eq (t : Dict) (e : List String) (v : Bool) :
    dateCheck t e v = (e ++ dateContribution t, v && (dateContribution t).isEmpty) := by
  unfold dateCheck dateContribution
  dsimp only
  by_cases h0 : (t.get "date").isNone
  · simp [h0]
  · by_cases h1 : (t.get "date").isDateLike
    · simp [h0, h1]
    · by_cases h2 : fromisoformatOk (pyStr (t.get "date")) <;> simp [h0, h1, h2]

theorem accountCheck_eq (t : Dict) (e : List String) (v : Bool) :
    accountCheck t e v =
      (e ++ accountContribution t, v && (accountContribution t).isEmpty) := by
  unfold accountCheck accountContribution
  dsimp only
  by_cases hid : (t.get "account_id").isNone
  · simp [hid]
  · by_cases hcb : (t.get "account_exists").isCallable
    · cases hr : (t.get "account_exists").callResult (t.get "account_id").toBase with
      | ok r =>
        by_cases hb : r.toBool <;> simp [hid, hcb, hr, hb]
      | error ex => simp [hid, hcb, hr]
    · by_cases hdb : (!(t.get "db").isNone && (t.get "db").hasCursorAttr) = true
      · cases hq : (t.get "db").runQuery "SELECT 1 FROM accounts WHERE id = %s"
            (t.get "account_id").toBase with
        | ok b =>
          by_cases hbb : b <;> simp [hid, hcb, hdb, hq, hbb]
        | error ex => simp [hid, hcb, hdb, hq]
      · simp [hid, hcb, hdb]

theorem validate_ok (t : Dict) (a : List String)
    (h : amountContribution t = .ok a) :
    validate_transaction t =
      .ok { valid := a.isEmpty && (dateContribution t).isEmpty &&
                       (accountContribution t).isEmpty,
            errors := a ++ (dateContribution t ++ accountContribution t) } := by
  unfold validate_transaction
  rw [amountCheck_eq, h]
  simp [Except.map, dateCheck_eq, accountCheck_eq, List.append_assoc]

theorem validate_err (t : Dict) (e : PyExc)
    (h : amountContribution t = .error e) :
    validate_transaction t = .error e := by
  unfold validate_transaction
  rw [amountCheck_eq, h]
  rfl

theorem list_isEmpty_append {α : Type} (l l2 : List α) :
    (l ++ l2).isEmpty = (l.isEmpty && l2.isEmpty) := by
  cases l <;> simp

theorem string_eq_of_toList {s t : String} (h : s.toList = t.toList) : s = t := by
  cases s with | mk a => cases t with | mk b =>
  simp only [String.toList] at h
  exact congrArg String.mk h

theorem string_toList_append (a b : String) : (a ++ b).toList = a.toList ++ b.toList := by
  cases a; cases b; simp [String.toList, String.instAppend, String.append]

theorem pad2_pair : ∀ a, a < 10 → ∀ b, b < 10 →
    (pad2 (10 * a + b)).toList = [Char.ofNat (48 + a), Char.ofNat (48 + b)] := by decide

theorem digit_char : ∀ a, a < 10 →
    (Char.ofNat (48 + a)).isDigit = true ∧ digitVal (Char.ofNat (48 + a)) = a := by decide

theorem char_digit (c : Char) (h : c.isDigit = true) :
    Char.ofNat (48 + digitVal c) = c ∧ digitVal c < 10 := by
  have hb : 48 ≤ c.toNat ∧ c.toNat ≤ 57 := by
    simp [Char.isDigit] at h
    exact h
  have h1 : 48 + digitVal c = c.toNat := by unfold digitVal; omega
  constructor
  · rw [h1]; exact Char.ofNat_toNat c
  · unfold digitVal; omega

theorem daysInMonth_le (y m : ℕ) : daysInMonth y m ≤ 31 := by
  unfold daysInMonth
  split
  · split <;> omega
  · split <;> omega

theorem render_toList (y m d : ℕ) (hy : y ≤ 9999) (hm : m ≤ 99) (hd : d ≤ 99) :
    (pad4 y ++ "-" ++ pad2 m ++ "-" ++ pad2 d).toList =
      [Char.ofNat (48 + y / 100 / 10), Char.ofNat (48 + y / 100 % 10),
       Char.ofNat (48 + y % 100 / 10), Char.ofNat (48 + y % 100 % 10), '-',
       Char.ofNat (48 + m / 10), Char.ofNat (48 + m % 10), '-',
       Char.ofNat (48 + d / 10), Char.ofNat (48 + d % 10)] := by
  have e1 : y / 100 = 10 * (y / 100 / 10) + y / 100 % 10 := by omega
  have e2 : y % 100 = 10 * (y % 100 / 10) + y % 100 % 10 := by omega
  have e3 : m = 10 * (m / 10) + m % 10 := by omega
  have e4 : d = 10 * (d / 10) + d % 10 := by omega
  have l1 := pad2_pair (y / 100 / 10) (by omega) (y / 100 % 10) (by omega)
  have l2 := pad2_pair (y % 100 / 10) (by omega) (y % 100 % 10) (by omega)
  have l3 := pad2_pair (m / 10) (by omega) (m % 10) (by omega)
  have l4 := pad2_pair (d / 10) (by omega) (d % 10) (by omega)
  rw [← e1] at l1
  rw [← e2] at l2
  rw [← e3] at l3
  rw [← e4] at l4
  have hdash : ("-" : String).toList = ['-'] := rfl
  unfold pad4
  simp only [string_toList_append, hdash]
  simp only [String.toList] at l1 l2 l3 l4 ⊢
  simp [l1, l2, l3, l4]

theorem fromisoformat_iff (s : String) :
    fromisoformatOk s = true ↔ IsCalendarDateString s := by
  constructor
  · intro h
    unfold fromisoformatOk at h
    split at h
    case h_2 => simp at h
    case h_1 y1 y2 y3 y4 c1 m1 m2 c2 d1 d2 heq =>
      simp only [Bool.and_eq_true, decide_eq_true_eq] at h
      obtain ⟨⟨⟨⟨⟨⟨⟨⟨⟨hy1, hy2⟩, hy3⟩, hy4⟩, hc1⟩, hm1⟩, hm2⟩, hc2⟩, hd1⟩, hd2⟩ := h.1
      obtain ⟨⟨⟨⟨hge1, hge2⟩, hle2⟩, hge3⟩, hle3⟩ := h.2
      obtain ⟨cy1, by1⟩ := char_digit y1 hy1
      obtain ⟨cy2, by2⟩ := char_digit y2 hy2
      obtain ⟨cy3, by3⟩ := char_digit y3 hy3
      obtain ⟨cy4, by4⟩ := char_digit y4 hy4
      obtain ⟨cm1, bm1⟩ := char_digit m1 hm1
      obtain ⟨cm2, bm2⟩ := char_digit m2 hm2
      obtain ⟨cd1, bd1⟩ := char_digit d1 hd1
      obtain ⟨cd2, bd2⟩ := char_digit d2 hd2
      refine ⟨1000 * digitVal y1 + 100 * digitVal y2 + 10 * digitVal y3 + digitVal y4,
              10 * digitVal m1 + digitVal m2, 10 * digitVal d1 + digitVal d2,
              by omega, by omega, by omega, hle2, by omega, hle3, ?_⟩
      apply string_eq_of_toList
      rw [render_toList _ _ _ (by omega) (by omega) (by omega)]
      have q1 : (1000 * digitVal y1 + 100 * digitVal y2 + 10 * digitVal y3 +
          digitVal y4) / 100 / 10 = digitVal y1 := by omega
      have q2 : (1000 * digitVal y1 + 100 * digitVal y2 + 10 * digitVal y3 +
          digitVal y4) / 100 % 10 = digitVal y2 := by omega
      have q3 : (1000 * digitVal y1 + 100 * digitVal y2 + 10 * digitVal y3 +
          digitVal y4) % 100 / 10 = digitVal y3 := by omega
      have q4 : (1000 * digitVal y1 + 100 * digitVal y2 + 10 * digitVal y3 +
          digitVal y4) % 100 % 10 = digitVal y4 := by omega
      have q5 : (10 * digitVal m1 + digitVal m2) / 10 = digitVal m1 := by omega
      have q6 : (10 * digitVal m1 + digitVal m2) % 10 = digitVal m2 := by omega
      have q7 : (10 * digitVal d1 + digitVal d2) / 10 = digitVal d1 := by omega
      have q8 : (10 * digitVal d1 + digitVal d2) % 10 = digitVal d2 := by omega
      rw [q1, q2, q3, q4, q5, q6, q7, q8, cy1, cy2, cy3, cy4, cm1, cm2, cd1, cd2,
          heq, hc1, hc2]
  · rintro ⟨y, m, d, hy1, hy2, hm1, hm2, hd1, hd2, rfl⟩
    have hdle : d ≤ 99 := le_trans hd2 (le_trans (daysInMonth_le y m) (by omega))
    unfold fromisoformatOk
    rw [render_toList y m d hy2 (by omega) hdle]
    obtain ⟨dy1, vy1⟩ := digit_char (y / 100 / 10) (by omega)
    obtain ⟨dy2, vy2⟩ := digit_char (y / 100 % 10) (by omega)
    obtain ⟨dy3, vy3⟩ := digit_char (y % 100 / 10) (by omega)
    obtain ⟨dy4, vy4⟩ := digit_char (y % 100 % 10) (by omega)
    obtain ⟨dm1, vm1⟩ := digit_char (m / 10) (by omega)
    obtain ⟨dm2, vm2⟩ := digit_char (m % 10) (by omega)
    obtain ⟨dd1, vd1⟩ := digit_char (d / 10) (by omega)
    obtain ⟨dd2, vd2⟩ := digit_char (d % 10) (by omega)
    simp only [dy1, dy2, dy3, dy4, dm1, dm2, dd1, dd2,
               vy1, vy2, vy3, vy4, vm1, vm2, vd1, vd2]
    have hyv : 1000 * (y / 100 / 10) + 100 * (y / 100 % 10) + 10 * (y % 100 / 10) +
        y % 100 % 10 = y := by omega
    have hmv : 10 * (m / 10) + m % 10 = m := by omega
    have hdv : 10 * (d / 10) + d % 10 = d := by omega
    rw [hyv, hmv, hdv]
    simp [hy1, hm1, hm2, hd1, hd2]

theorem pyFloatCoerce_error_cases (v : PyVal) (e : PyExc)
    (h : pyFloatCoerce v = .error e) :
    e = .typeError ∨ e = .valueError ∨
      (e = .overflowError ∧ ∃ n, v = .base (.int n) ∧ 2 ^ 1024 ≤ n.natAbs) := by
  cases v with
  | base b =>
    cases b with
    | int n =>
      by_cases hb : 2 ^ 1024 ≤ n.natAbs
      · simp only [pyFloatCoerce, if_pos hb, Except.error.injEq] at h
        exact Or.inr (Or.inr ⟨h.symm, n, rfl, hb⟩)
      · simp [pyFloatCoerce, hb] at h
    | str s =>
      cases hp : parseFloatStr s <;> simp [pyFloatCoerce, hp] at h
      exact Or.inr (Or.inl h.symm)
    | none => simp [pyFloatCoerce] at h; exact Or.inl h.symm
    | float f => simp [pyFloatCoerce] at h
    | date y m d => simp [pyFloatCoerce] at h; exact Or.inl h.symm
    | datetime y m d hh mi ss => simp [pyFloatCoerce] at h; exact Or.inl h.symm
    | obj s => simp [pyFloatCoerce] at h; exact Or.inl h.symm
  | callable f => simp [pyFloatCoerce] at h; exact Or.inl h.symm
  | db hh => simp [pyFloatCoerce] at h; exact Or.inl h.symm

theorem amountContribution_ok_cases (t : Dict) (a : List String)
    (h : amountContribution t = .ok a) :
    a = [] ∨ a = ["amount is required"] ∨ a = ["amount must be a number"] ∨
      a = ["amount must be greater than 0"] := by
  unfold amountContribution at h
  dsimp only at h
  split at h
  · simp_all
  · cases hc : pyFloatCoerce (t.get "amount") with
    | error ex => cases ex <;> rw [hc] at h <;> simp_all
    | ok f =>
      rw [hc] at h
      dsimp only at h
      split at h <;> simp_all

theorem amountContribution_error_cases (t : Dict) (e : PyExc)
    (h : amountContribution t = .error e) :
    e = .overflowError ∧
      ∃ n, t.get "amount" = .base (.int n) ∧ 2 ^ 1024 ≤ n.natAbs := by
  unfold amountContribution at h
  dsimp only at h
  split at h
  · simp at h
  · cases hc : pyFloatCoerce (t.get "amount") with
    | error ex =>
      cases ex with
      | typeError => rw [hc] at h; simp at h
      | valueError => rw [hc] at h; simp at h
      | overflowError =>
        rw [hc] at h
        dsimp only at h
        injection h with h
        refine ⟨h.symm, ?_⟩
        rcases pyFloatCoerce_error_cases _ _ hc with h1 | h1 | h1
        · simp at h1
        · simp at h1
        · exact h1.2
      | other msg =>
        rw [hc] at h
        dsimp only at h
        injection h with h
        rcases pyFloatCoerce_error_cases _ _ hc with h1 | h1 | h1
        · simp at h1
        · simp at h1
        · simp at h1
    | ok f =>
      rw [hc] at h
      dsimp only at h
      split at h <;> simp at h

theorem dateContribution_cases (t : Dict) :
    dateContribution t = [] ∨ dateContribution t = ["date is required"] ∨
      dateContribution t = ["date is not a valid date"] := by
  unfold dateContribution
  dsimp only
  by_cases h0 : (t.get "date").isNone <;> by_cases h1 : (t.get "date").isDateLike <;>
    by_cases h2 : fromisoformatOk (pyStr (t.get "date")) <;> simp [h0, h1, h2]

theorem accountContribution_cases (t : Dict) :
    accountContribution t = [] ∨
    accountContribution t = ["account_id is required"] ∨
    accountContribution t =
      ["account with id " ++ pyStr (t.get "account_id") ++ " does not exist"] ∨
    accountContribution t =
      ["account existence could not be verified (no db handler or callback provided)",
       "account with id " ++ pyStr (t.get "account_id") ++ " does not exist"] := by
  unfold accountContribution
  dsimp only
  by_cases hid : (t.get "account_id").isNone
  · simp [hid]
  · by_cases hcb : (t.get "account_exists").isCallable
    · cases hr : (t.get "account_exists").callResult (t.get "account_id").toBase with
      | ok r => by_cases hb : r.toBool <;> simp [hid, hcb, hr, hb]
      | error ex => simp [hid, hcb, hr]
    · by_cases hdb : (!(t.get "db").isNone && (t.get "db").hasCursorAttr) = true
      · cases hq : (t.get "db").runQuery "SELECT 1 FROM accounts WHERE id = %s"
            (t.get "account_id").toBase with
        | ok b => by_cases hbb : b <;> simp [hid, hcb, hdb, hq, hbb]
        | error ex => simp [hid, hcb, hdb, hq]
      · simp [hid, hcb, hdb]

theorem isNone_eq_none {v : PyVal} (h : v.isNone = true) : v = .base .none := by
  cases v with
  | base b => cases b <;> simp [PyVal.isNone] at h ⊢
  | callable f => simp [PyVal.isNone] at h
  | db hh => simp [PyVal.isNone] at h

/-- C1: whenever `validate_transaction` returns a result, the result's
`valid` flag is true exactly when its `errors` list is empty. -/
theorem C1_valid_iff_no_errors (t : Dict) (r : VResult)
    (h : validate_transaction t = .ok r) : r.valid = r.errors.isEmpty := by
  cases hc : amountContribution t with
  | error e => rw [validate_err t e hc] at h; cases h
  | ok a =>
    rw [validate_ok t a hc] at h
    injection h with h
    subst h
    simp [list_isEmpty_append, Bool.and_assoc]

/-- C1 witness: the empty transaction returns `valid = false` with a
nonempty error list, and the flag agrees with emptiness of the list. -/
theorem C1_witness :
    (VResult.mk false
        ["amount is required", "date is required", "account_id is required"]).valid =
      (VResult.mk false
        ["amount is required", "date is required", "account_id is required"]).errors.isEmpty :=
  C1_valid_iff_no_errors ⟨[]⟩ _ rfl

/-- C2 counterexample: with amount `10 ^ 400` (an integer too large for a
float) the coercion raises `OverflowError`, which the
`except (TypeError, ValueError)` clause does not catch, so the call
propagates an exception to the caller instead of returning a result. -/
theorem C2_counterexample :
    validate_transaction overflowTx = .error .overflowError := by decide

/-- C2 amended: all exceptions raised during date parsing, callback
invocation or the database query are caught, and so are `TypeError` and
`ValueError` from the amount coercion; the only exception that can reach
the caller is the `OverflowError` from coercing an integer amount beyond
double range. -/
theorem C2_exception_policy (t : Dict) (e : PyExc)
    (h : validate_transaction t = .error e) :
    e = .overflowError ∧
      ∃ n, t.get "amount" = .base (.int n) ∧ 2 ^ 1024 ≤ n.natAbs := by
  cases hc : amountContribution t with
  | ok a => rw [validate_ok t a hc] at h; cases h
  | error e2 =>
    rw [validate_err t e2 hc] at h
    injection h with h
    subst h
    exact amountContribution_error_cases t e2 hc

/-- C2 amended witness at `overflowTx`. -/
theorem C2_exception_policy_witness :
    PyExc.overflowError = PyExc.overflowError ∧
      ∃ n, overflowTx.get "amount" = .base (.int n) ∧ 2 ^ 1024 ≤ n.natAbs :=
  C2_exception_policy overflowTx .overflowError (by decide)

/-- C3: with `account_id` present and neither a callable `account_exists`
entry nor a `db` entry, the account block appends exactly two errors, the
could-not-verify message followed by the does-not-exist message, and the
returned error list ends with exactly that pair. -/
theorem C3_unverifiable_two_errors (t : Dict)
    (hid : (t.get "account_id").isNone = false)
    (hcb : (t.get "account_exists").isCallable = false)
    (hdb : (t.get "db").isNone = true) :
    accountContribution t =
      ["account existence could not be verified (no db handler or callback provided)",
       "account with id " ++ pyStr (t.get "account_id") ++ " does not exist"] ∧
    ∀ r, validate_transaction t = .ok r →
      ∃ a, amountContribution t = .ok a ∧
        r.errors = a ++ dateContribution t ++
          ["account existence could not be verified (no db handler or callback provided)",
           "account with id " ++ pyStr (t.get "account_id") ++ " does not exist"] := by
  have hac : accountContribution t =
      ["account existence could not be verified (no db handler or callback provided)",
       "account with id " ++ pyStr (t.get "account_id") ++ " does not exist"] := by
    unfold accountContribution
    dsimp only
    simp [hid, hcb, hdb]
  refine ⟨hac, ?_⟩
  intro r h
  cases hc : amountContribution t with
  | error e => rw [validate_err t e hc] at h; cases h
  | ok a =>
    rw [validate_ok t a hc] at h
    injection h with h
    subst h
    exact ⟨a, rfl, by rw [hac]; simp [List.append_assoc]⟩

/-- C3 witness: `account_id = 5` with neither callback nor db yields the
two-error pair for the account field. -/
theorem C3_witness :
    accountContribution unverifiableTx =
      ["account existence could not be verified (no db handler or callback provided)",
       "account with id " ++ pyStr (unverifiableTx.get "account_id") ++ " does not exist"] ∧
    ∀ r, validate_transaction unverifiableTx = .ok r →
      ∃ a, amountContribution unverifiableTx = .ok a ∧
        r.errors = a ++ dateContribution unverifiableTx ++
          ["account existence could not be verified (no db handler or callback provided)",
           "account with id " ++ pyStr (unverifiableTx.get "account_id") ++ " does not exist"] :=
  C3_unverifiable_two_errors unverifiableTx (by decide) (by decide) (by decide)

/-- C4 counterexample: with amount `2 ^ 1100` the numeric coercion fails,
yet no "amount must be a number" error is produced — the call raises
`OverflowError` instead. -/
theorem C4_counterexample :
    pyFloatCoerce (overflowTx2.get "amount") = .error .overflowError ∧
    amountContribution overflowTx2 ≠ .ok ["amount must be a number"] ∧
    validate_transaction overflowTx2 = .error .overflowError :=
  ⟨by decide, by decide, by decide⟩

/-- C4 amended: the amount block contributes at most one error: an absent
amount gives "amount is required"; a coercion failing with `TypeError` or
`ValueError` gives "amount must be a number"; a coerced value `<= 0` gives
"amount must be greater than 0"; a positive coerced value gives no error;
a coercion failure of any other kind (an integer beyond double range)
produces no amount error and propagates the exception instead.  The
non-numeric and not-positive errors are mutually exclusive. -/
theorem C4_amount_cases (t : Dict) :
    ((t.get "amount").isNone = true →
      amountContribution t = .ok ["amount is required"]) ∧
    ((t.get "amount").isNone = false →
      (∀ e, pyFloatCoerce (t.get "amount") = .error e →
        (e = .typeError ∨ e = .valueError) →
        amountContribution t = .ok ["amount must be a number"]) ∧
      (∀ f, pyFloatCoerce (t.get "amount") = .ok f → f.le0 = true →
        amountContribution t = .ok ["amount must be greater than 0"]) ∧
      (∀ f, pyFloatCoerce (t.get "amount") = .ok f → f.le0 = false →
        amountContribution t = .ok []) ∧
      (∀ e, pyFloatCoerce (t.get "amount") = .error e →
        e ≠ .typeError → e ≠ .valueError →
        amountContribution t = .error e ∧ validate_transaction t = .error e)) ∧
    (∀ a, amountContribution t = .ok a → a.length ≤ 1) := by
  refine ⟨?_, ?_, ?_⟩
  · intro hn
    unfold amountContribution
    dsimp only
    simp [hn]
  · intro hn
    refine ⟨?_, ?_, ?_, ?_⟩
    · intro e he hor
      unfold amountContribution
      dsimp only
      rw [if_neg (by simp [hn]), he]
      rcases hor with rfl | rfl <;> rfl
    · intro f hf hle
      unfold amountContribution
      dsimp only
      rw [if_neg (by simp [hn]), hf]
      simp [hle]
    · intro f hf hle
      unfold amountContribution
      dsimp only
      rw [if_neg (by simp [hn]), hf]
      simp [hle]
    · intro e he hnte hnve
      have hma : amountContribution t = .error e := by
        unfold amountContribution
        dsimp only
        rw [if_neg (by simp [hn]), he]
        cases e with
        | typeError => exact absurd rfl hnte
        | valueError => exact absurd rfl hnve
        | overflowError => rfl
        | other m => rfl
      exact ⟨hma, validate_err t e hma⟩
  · intro a ha
    rcases amountContribution_ok_cases t a ha with rfl | rfl | rfl | rfl <;> simp

/-- C4 amended witness: the string amount "abc" produces exactly the
"amount must be a number" error. -/
theorem C4_witness :
    amountContribution ⟨[("amount", PyVal.base (.str "abc"))]⟩ =
      .ok ["amount must be a number"] :=
  ((C4_amount_cases ⟨[("amount", PyVal.base (.str "abc"))]⟩).2.1 (by decide)).1
    .valueError (by decide) (Or.inr rfl)

/-- C5: with a present date value, a date/datetime instance is accepted
with no date error regardless of its components; any other value is
stringified and parsed, producing "date is not a valid date" exactly when
the string form is not a `YYYY-MM-DD` calendar date. -/
theorem C5_date_cases (t : Dict) (hp : (t.get "date").isNone = false) :
    ((t.get "date").isDateLike = true → dateContribution t = []) ∧
    ((t.get "date").isDateLike = false →
      (dateContribution t = [] ↔ IsCalendarDateString (pyStr (t.get "date"))) ∧
      (dateContribution t = [] ∨ dateContribution t = ["date is not a valid date"]) ∧
      (∀ s, t.get "date" = .base (.str s) →
        (dateContribution t = [] ↔ IsCalendarDateString s))) := by
  constructor
  · intro hdl
    unfold dateContribution
    dsimp only
    simp [hp, hdl]
  · intro hdl
    have hchar : dateContribution t =
        (if fromisoformatOk (pyStr (t.get "date")) = true then []
         else ["date is not a valid date"]) := by
      unfold dateContribution
      dsimp only
      simp [hp, hdl]
    have hiff : dateContribution t = [] ↔
        IsCalendarDateString (pyStr (t.get "date")) := by
      rw [hchar]
      constructor
      · intro he
        by_cases hf : fromisoformatOk (pyStr (t.get "date")) = true
        · exact (fromisoformat_iff _).mp hf
        · rw [if_neg hf] at he
          simp at he
      · intro hcal
        rw [if_pos ((fromisoformat_iff _).mpr hcal)]
    refine ⟨hiff, ?_, ?_⟩
    · rw [hchar]
      by_cases hf : fromisoformatOk (pyStr (t.get "date")) = true <;> simp [hf]
    · intro s hv
      have hps : pyStr (t.get "date") = s := by rw [hv]; rfl
      rw [← hps]
      exact hiff

/-- C5 witness: the string date "2024-01-15" contributes no date error and
is a calendar date string. -/
theorem C5_witness :
    dateContribution strDateTx = [] ↔ IsCalendarDateString "2024-01-15" :=
  ((C5_date_cases strDateTx (by decide)).2 (by decide)).2.2 "2024-01-15" rfl

/-- C6: a callable `account_exists` takes precedence over any db entry and
is applied to `account_id`; its result is coerced with `bool`, and an
exception from it makes existence false, yielding only the single
does-not-exist error and no error describing the exception. -/
theorem C6_callable_precedence (t : Dict) (f : PyBase → Except PyExc PyBase)
    (hcb : t.get "account_exists" = .callable f)
    (hid : (t.get "account_id").isNone = false) :
    accountContribution t =
      (match f (t.get "account_id").toBase with
       | .ok v =>
         if v.toBool then []
         else ["account with id " ++ pyStr (t.get "account_id") ++ " does not exist"]
       | .error _ =>
         ["account with id " ++ pyStr (t.get "account_id") ++ " does not exist"]) := by
  unfold accountContribution
  dsimp only
  rw [if_neg (by simp [hid]), hcb]
  dsimp only [PyVal.isCallable, PyVal.callResult]
  rw [if_pos rfl]
  cases hr : f (t.get "account_id").toBase with
  | ok r => by_cases hb : r.toBool <;> simp [hb]
  | error ex => simp

/-- C6 witness: a raising callback beside a willing db handle produces
exactly the single does-not-exist error. -/
theorem C6_witness :
    accountContribution raisingCallbackTx = ["account with id 5 does not exist"] := by
  have h := C6_callable_precedence raisingCallbackTx
      (fun _ => .error (.other "boom")) rfl (by decide)
  rw [h]
  rfl

/-- C7: whenever a result is returned its error list is the amount block's
errors, then the date block's, then the account block's, each group drawn
only from its own messages; the empty input yields exactly the three
required-field errors in that order. -/
theorem C7_error_order (t : Dict) (r : VResult)
    (h : validate_transaction t = .ok r) :
    (∃ a, amountContribution t = .ok a ∧
      r.errors = a ++ dateContribution t ++ accountContribution t ∧
      (∀ m ∈ a, m = "amount is required" ∨ m = "amount must be a number" ∨
        m = "amount must be greater than 0") ∧
      (∀ m ∈ dateContribution t,
        m = "date is required" ∨ m = "date is not a valid date") ∧
      (∀ m ∈ accountContribution t, m = "account_id is required" ∨
        m = "account existence could not be verified (no db handler or callback provided)" ∨
        m = "account with id " ++ pyStr (t.get "account_id") ++ " does not exist")) ∧
    validate_transaction ⟨[]⟩ =
      .ok ⟨false, ["amount is required", "date is required", "account_id is required"]⟩ := by
  refine ⟨?_, by decide⟩
  cases hc : amountContribution t with
  | error e => rw [validate_err t e hc] at h; cases h
  | ok a =>
    rw [validate_ok t a hc] at h
    injection h with h
    subst h
    refine ⟨a, rfl, by simp [List.append_assoc], ?_, ?_, ?_⟩
    · intro m hm
      rcases amountContribution_ok_cases t a hc with rfl | rfl | rfl | rfl <;>
        simp at hm <;> tauto
    · intro m hm
      rcases dateContribution_cases t with hd | hd | hd <;> rw [hd] at hm <;>
        simp at hm <;> tauto
    · intro m hm
      rcases accountContribution_cases t with ha | ha | ha | ha <;> rw [ha] at hm <;>
        simp at hm <;> tauto

/-- C7 witness at the empty transaction. -/
theorem C7_witness :
    ∃ a, amountContribution ⟨[]⟩ = .ok a ∧
      (VResult.mk false
        ["amount is required", "date is required", "account_id is required"]).errors =
        a ++ dateContribution ⟨[]⟩ ++ accountContribution ⟨[]⟩ ∧
      (∀ m ∈ a, m = "amount is required" ∨ m = "amount must be a number" ∨
        m = "amount must be greater than 0") ∧
      (∀ m ∈ dateContribution (⟨[]⟩ : Dict),
        m = "date is required" ∨ m = "date is not a valid date") ∧
      (∀ m ∈ accountContribution (⟨[]⟩ : Dict), m = "account_id is required" ∨
        m = "account existence could not be verified (no db handler or callback provided)" ∨
        m = "account with id " ++ pyStr ((⟨[]⟩ : Dict).get "account_id") ++
          " does not exist") :=
  (C7_error_order ⟨[]⟩ ⟨false,
    ["amount is required", "date is required", "account_id is required"]⟩ rfl).1

/-- C8: the validator never mutates the transaction mapping — the
state-threaded run returns the mapping unchanged, with the same outcome as
the pure run, also when an exception propagates. -/
theorem C8_no_mutation (t : Dict) :
    validate_transaction_st t = (validate_transaction t, t) := by
  unfold validate_transaction_st validate_transaction Dict.getS
  dsimp only
  cases amountCheck t [] true with
  | error e => rfl
  | ok p => rfl

/-- C9: a present but non-callable `account_exists` entry is skipped: the
account block behaves exactly as if the entry were absent — falling
through to a cursor-bearing db handle when one is supplied, and otherwise
producing the could-not-verify / does-not-exist pair. -/
theorem C9_non_callable_skipped (t t2 : Dict)
    (hp : (t.get "account_exists").isNone = false)
    (hnc : (t.get "account_exists").isCallable = false)
    (hid : t2.get "account_id" = t.get "account_id")
    (hdb : t2.get "db" = t.get "db")
    (habs : t2.get "account_exists" = .base .none) :
    accountContribution t = accountContribution t2 ∧
    (∀ hdl : DbHandle, t.get "db" = .db hdl → hdl.hasCursor = true →
      (t.get "account_id").isNone = false →
      accountContribution t =
        (match hdl.query "SELECT 1 FROM accounts WHERE id = %s"
            (t.get "account_id").toBase with
         | .ok b =>
           if b then []
           else ["account with id " ++ pyStr (t.get "account_id") ++ " does not exist"]
         | .error _ =>
           ["account with id " ++ pyStr (t.get "account_id") ++ " does not exist"])) ∧
    (((t.get "db").isNone = true ∨ (t.get "db").hasCursorAttr = false) →
      (t.get "account_id").isNone = false →
      accountContribution t =
        ["account existence could not be verified (no db handler or callback provided)",
         "account with id " ++ pyStr (t.get "account_id") ++ " does not exist"]) := by
  refine ⟨?_, ?_, ?_⟩
  · unfold accountContribution
    dsimp only
    rw [hid, hdb, habs, hnc]
    simp [PyVal.isCallable]
  · intro hdl hq hcur hidf
    unfold accountContribution
    dsimp only
    rw [if_neg (by simp [hidf])]
    cases hr : hdl.query "SELECT 1 FROM accounts WHERE id = %s"
        (t.get "account_id").toBase with
    | ok b =>
      by_cases hb : b = true <;>
        simp [hnc, hq, hcur, hr, hb, PyVal.isNone, PyVal.hasCursorAttr,
          PyVal.runQuery]
    | error ex =>
      simp [hnc, hq, hcur, hr, PyVal.isNone, PyVal.hasCursorAttr,
        PyVal.runQuery]
  · intro hd hidf
    rcases hd with hd | hd <;>
      · unfold accountContribution
        dsimp only
        simp [hidf, hnc, hd]

/-- C9 witness: a string-valued `account_exists` with a working db handle
behaves exactly as if `account_exists` were absent, and the db handle
reports existence, so no account error results. -/
theorem C9_witness :
    accountContribution strCallbackTx = accountContribution strCallbackTxAbsent ∧
    accountContribution strCallbackTx = [] := by
  have h := C9_non_callable_skipped strCallbackTx strCallbackTxAbsent
      (by decide) (by decide) rfl rfl rfl
  refine ⟨h.1, ?_⟩
  have h2 := h.2.1 ⟨true, fun _ _ => .ok true⟩ rfl rfl (by decide)
  simpa using h2

/-- C10: an amount whose coercion yields NaN or positive infinity (for
example the strings "nan" and "inf") produces no amount error at all: the
coercion succeeds and the `<= 0` comparison is false for both values. -/
theorem C10_nan_inf_amount (t : Dict)
    (h : pyFloatCoerce (t.get "amount") = .ok .nan ∨
         pyFloatCoerce (t.get "amount") = .ok .inf) :
    amountContribution t = .ok [] ∧
    parseFloatStr "nan" = some .nan ∧ parseFloatStr "inf" = some .inf ∧
    ∀ r, validate_transaction t = .ok r →
      r.errors = dateContribution t ++ accountContribution t := by
  have hn : (t.get "amount").isNone = false := by
    cases hx : (t.get "amount").isNone
    · rfl
    · have hv := isNone_eq_none hx
      rw [hv] at h
      rcases h with h | h <;> simp [pyFloatCoerce] at h
  have hco : amountContribution t = .ok [] := by
    unfold amountContribution
    dsimp only
    rw [if_neg (by simp [hn])]
    rcases h with h | h <;> rw [h] <;> rfl
  refine ⟨hco, by decide, by decide, ?_⟩
  intro r hr
  rw [validate_ok t [] hco] at hr
  injection hr with hr
  subst hr
  simp

/-- C10 witness: the amount string "nan" coerces to NaN and contributes no
amount error. -/
theorem C10_witness :
    amountContribution nanAmountTx = .ok [] ∧
    parseFloatStr "nan" = some .nan ∧ parseFloatStr "inf" = some .inf ∧
    ∀ r, validate_transaction nanAmountTx = .ok r →
      r.errors = dateContribution nanAmountTx ++ accountContribution nanAmountTx :=
  C10_nan_inf_amount nanAmountTx (Or.inl (by decide))

end NL2PL
